import Mathlib

/-!
Shallow embedding of the PixelFarm field-analysis pipeline.

Source files embedded here:
* `src/unnamed/part_000` — `calculatePolygonArea` (planar shoelace with
  mean-latitude correction), lines 405–428.
* `src/components/map-component.tsx` — the second `calculatePolygonArea`
  variant (lines 266–281); we model its in-repo fallback branch (the
  shoelace with modulo wraparound and no latitude correction), since the
  other branch delegates to the external Leaflet `GeometryUtil`.
* `src/app/api/analyze_field/route.ts` — `validateGeometry`,
  `createResponse`, `getEarthEngineToken`, `POST` (the REST-variant
  handler).
* `src/unnamed/part_002` — `validateGeometry`, `createResponse`, `POST`
  (the Earth-Engine-SDK variant handler with health zones and
  recommendations).
* `src/app/page.tsx` — the client-side `validateField`.

JavaScript numbers are embedded as `ℚ` where the code only compares,
adds and divides (validators, histogram/zone arithmetic), and as `ℝ`
where the code calls `Math.cos`/`Math.PI` (the area calculator).
External effects (OAuth token acquisition, Earth Engine authentication,
the imagery compute calls) are modelled as an explicit event trace plus
an `Upstream` oracle describing the outcome of each call.
-/

namespace PixelFarm

/-! ## Geometry input model

A ring coordinate as the server validator distinguishes it. The format
check is only `!Array.isArray(coord) || coord.length !== 2`; the
destructured entries are then used in relational comparisons, which
coerce them to numbers. An entry is modelled by its coercion: `num q`
for an entry whose coercion is the number `q` (a JSON number, `null`
→ 0, a numeric string → its value, ...), `nan` for an entry whose
coercion is NaN (a non-numeric string, an object, ...). Every
comparison against NaN is false. -/

inductive JsVal where
  | num (q : ℚ)
  | nan
deriving DecidableEq, Repr

/-- JavaScript `v < q` after numeric coercion of `v`. -/
def JsVal.lt : JsVal → ℚ → Bool
  | .num x, q => decide (x < q)
  | .nan, _ => false

/-- JavaScript `v > q` after numeric coercion of `v`. -/
def JsVal.gt : JsVal → ℚ → Bool
  | .num x, q => decide (q < x)
  | .nan, _ => false

/-- JavaScript template-literal rendering of the coerced value. -/
def JsVal.render : JsVal → String
  | .num q => toString q
  | .nan => "NaN"

/-- A ring coordinate: a 2-element array (with its two coerced
entries), or anything the format check rejects (not an array, or an
array whose length is not 2). -/
inductive Coord where
  | pair (lng lat : JsVal)
  | malformed
deriving DecidableEq, Repr

/-- A 2-element pair of plain numbers. -/
def Coord.numPair (lng lat : ℚ) : Coord := .pair (.num lng) (.num lat)

/-- Untrusted request geometry, as far as the validators inspect it:
a `type` tag and an optional array of rings (`none` models
`coordinates` not being an array). A missing/falsy geometry is
`Option RawGeometry`'s `none` at the use sites. -/
structure RawGeometry where
  type : String
  coords : Option (List (List Coord))
deriving DecidableEq, Repr

/-- Render a rational the way JavaScript template literals render the
numbers that reach the validator message. -/
def numStr (q : ℚ) : String := toString q

/-- `validateGeometry`'s per-coordinate loop over the outer ring
(`route.ts` lines 10–14 / `part_002` lines 11–17): first failure wins. -/
def checkRing : List Coord → Bool × String
  | [] => (true, "Valid geometry")
  | Coord.malformed :: _ => (false, "Invalid coordinate format")
  | Coord.pair lng lat :: rest =>
    if (lng.lt (-180) || lng.gt 180 || lat.lt (-90) || lat.gt 90) = true then
      (false, "Invalid coordinates: longitude " ++ lng.render ++ ", latitude " ++ lat.render)
    else checkRing rest

/-- Server-side `validateGeometry` (identical in `route.ts` lines 5–16
and `part_002` lines 5–19). -/
def validateGeometry : Option RawGeometry → Bool × String
  | none => (false, "Geometry is required")
  | some g =>
    if g.type ≠ "Polygon" then (false, "Geometry must be a Polygon")
    else
      match g.coords with
      | none => (false, "Invalid coordinates")
      | some rings =>
        if rings.length < 1 ∨ (rings.headD []).length < 4 then
          (false, "Polygon must have at least 3 points")
        else checkRing (rings.headD [])

/-! ## Client-side validator (`src/app/page.tsx` lines 79–100)

The drawing layer always hands the client a feature whose
`geometry.coordinates` is an array of rings, so the client field is
modelled with its rings in place; `area` is `properties?.area`, with
`none` for an absent property (the code reads `... || 0`). -/

structure ClientField where
  geomType : String
  rings : List (List Coord)
  area : Option ℚ
deriving DecidableEq, Repr

/-- `validateField`: returns `some errorMessage` on rejection, `none`
(null) on acceptance. Note the code checks only geometry type, outer
ring length and the area range — it never inspects individual
coordinates. -/
def validateField (f : ClientField) : Option String :=
  if f.geomType ≠ "Polygon" then some "Field must be a polygon"
  else if (f.rings.headD []).length < 4 then some "Polygon must have at least 3 points"
  else
    let area := f.area.getD 0
    if area < 1/10 ∨ area > 10000 then
      some ("Field area (" ++ numStr area ++ " ha) is outside valid range (0.1 - 10,000 ha)")
    else none

/-! ## Geometry area calculator (`src/unnamed/part_000` lines 405–428)

`calculatePolygonArea` takes the ring as a list of `[lng, lat]` pairs.
The `for` loop accumulates `x_i * y_{i+1} - x_{i+1} * y_i` for
`i = 0 … length-2` (no wraparound term); `avgLat` is the arithmetic
mean of the latitudes. -/

/-- The shoelace `for` loop of `calculatePolygonArea`: cross terms of
consecutive vertex pairs, last-to-first pair not included. -/
def shoelaceSum : List (ℝ × ℝ) → ℝ
  | p :: q :: rest => (p.1 * q.2 - q.1 * p.2) + shoelaceSum (q :: rest)
  | _ => 0

/-- `lats.reduce(...) / lats.length` — the mean latitude of the ring. -/
noncomputable def avgLat (coords : List (ℝ × ℝ)) : ℝ :=
  (coords.map Prod.snd).sum / coords.length

/-- `calculatePolygonArea` from `src/unnamed/part_000`:
shoelace square-degree area, mean-latitude cosine correction with
111320 meters per degree, square meters to hectares. -/
noncomputable def calculatePolygonArea (coords : List (ℝ × ℝ)) : ℝ :=
  if coords.length < 4 then 0
  else
    let area := |shoelaceSum coords| / 2
    let latRad := avgLat coords * (Real.pi / 180)
    area * 111320 ^ 2 * Real.cos latRad / 10000

/-- Spec-side formula: the sum "over consecutive vertex pairs" written
as a zip, for comparison with the loop. -/
def pairSum (coords : List (ℝ × ℝ)) : ℝ :=
  ((coords.zip coords.tail).map (fun pq => pq.1.1 * pq.2.2 - pq.2.1 * pq.1.2)).sum

/-- Spec-side wraparound term: the cross term of the pair
(last vertex, first vertex). -/
def wrapTerm (coords : List (ℝ × ℝ)) : ℝ :=
  (coords.getLastD (0, 0)).1 * (coords.headD (0, 0)).2
    - (coords.headD (0, 0)).1 * (coords.getLastD (0, 0)).2

/-- Modelled from the spec: the area formula as the spec's words state
it — "shoelace sum over consecutive vertex pairs including the
wraparound pair (last vertex back to the first)", then the same
scaling as the code. Used only to compare against
`calculatePolygonArea`. -/
noncomputable def areaSpecWithWrap (coords : List (ℝ × ℝ)) : ℝ :=
  if coords.length < 4 then 0
  else
    |pairSum coords + wrapTerm coords| / 2 * 111320 ^ 2
      * Real.cos (avgLat coords * (Real.pi / 180)) / 10000

/-! ## Area calculator variant (`src/components/map-component.tsx`
lines 266–281)

This variant guards with `coordinates.length < 3` and, in its in-repo
fallback branch (taken when Leaflet's `GeometryUtil` is absent), sums
cross terms with modulo wraparound `j = (i + 1) % n` and applies no
latitude correction. All arithmetic is rational-expressible. -/

def mapComponentArea (coords : List (ℚ × ℚ)) : ℚ :=
  if coords.length < 3 then 0
  else
    let n := coords.length
    let s := (Finset.range n).sum fun i =>
      (coords.getD i (0, 0)).1 * (coords.getD ((i + 1) % n) (0, 0)).2
        - (coords.getD ((i + 1) % n) (0, 0)).1 * (coords.getD i (0, 0)).2
    |s| / 2 * 111320 * 111320 / 10000

/-! ## Analysis derivation (`src/unnamed/part_002` lines 96–184)

The five `reduceRegion` results are modelled by `UpstreamData`: each
mean is `Option ℚ` (`none` models a missing/null value, since the code
coalesces with `?? null` and then treats non-numbers as null), and the
NDVI histogram is `Option Hist` (`none` models `ndviHistDict.NDVI`
being absent; a non-array `bucketMeans`/`histogram` coalesces to `[]`
in the code and is modelled as the empty list). -/

structure Hist where
  bucketMeans : List ℚ
  counts : List ℚ
deriving DecidableEq, Repr

structure UpstreamData where
  ndvi : Option ℚ
  evi : Option ℚ
  ndwi : Option ℚ
  ndre : Option ℚ
  hist : Option Hist
deriving DecidableEq, Repr

structure HealthZones where
  healthy : ℤ
  moderate : ℤ
  stressed : ℤ
deriving DecidableEq, Repr

/-- JavaScript `Math.round` on the values that occur here
(non-negative percentages): round half up. -/
def jround (q : ℚ) : ℤ := ⌊q + 1/2⌋

/-- One iteration of the classification loop (lines 116–122):
`mean > 0.3` → healthy, `mean > 0.15` → moderate, else stressed. -/
def zoneStep : ℚ × ℚ × ℚ → ℚ × ℚ → ℚ × ℚ × ℚ
  | (he, mo, st), (mean, count) =>
    if 3/10 < mean then (he + count, mo, st)
    else if 3/20 < mean then (he, mo + count, st)
    else (he, mo, st + count)

/-- The loop runs for `i < min(bucketMeans.length, counts.length)`,
which the zip realises. -/
def zoneTotals (h : Hist) : ℚ × ℚ × ℚ :=
  (h.bucketMeans.zip h.counts).foldl zoneStep (0, 0, 0)

/-- Lines 107–128: `health_zones` before the `noNDVIData` override —
`null` unless the histogram is present with positive total count. -/
def healthZonesOf : Option Hist → Option HealthZones
  | none => none
  | some h =>
    let total := h.counts.sum
    if 0 < total then
      let t := zoneTotals h
      some ⟨jround (t.1 / total * 100), jround (t.2.1 / total * 100),
            jround (t.2.2 / total * 100)⟩
    else none

/-- Line 130: `noNDVIData` is set when `avg_ndvi` is null/not a number
AND the falsy chain over the histogram holds. The chain ends in
`!ndviHistDict.NDVI.histogram.counts`, and `histogram` is an array (it
has no `counts` property), so that disjunct — hence the whole chain —
is true in every state in which it is evaluated; the final `.reduce`
disjunct is short-circuited away. The conjunction therefore reduces to
the first conjunct. -/
def noNDVIDataOf (avg_ndvi : Option ℚ) : Bool := avg_ndvi.isNone

/-- Lines 130–133: the override forcing `health_zones` to null when
`noNDVIData` is set. -/
def finalHealthZones (u : UpstreamData) : Option HealthZones :=
  if noNDVIDataOf u.ndvi then none else healthZonesOf u.hist

def recPositive : String :=
  "Your field looks great! No major issues detected. Keep up the good work and continue regular monitoring."
def recNoData : String :=
  "No NDVI data available for this field. Try a different area or date."
def recNdviLow : String :=
  "Increase irrigation and check for crop stress. Consider soil testing and replanting if low NDVI persists."
def recNdviHigh : String :=
  "Field is healthy. Maintain current practices and monitor for pests."
def recNdviMid : String :=
  "Monitor field regularly. Apply fertilizer if needed and check for emerging stress."
def recNdwiLow : String := "Increase watering. Soil or crop may be dry."
def recNdwiHigh : String := "Field is well-watered. Avoid over-irrigation."
def recNdreLow : String := "Low NDRE: Check for nutrient deficiencies, especially nitrogen."
def recEviLow : String := "Low EVI: Vegetation is sparse or stressed."
def recGeneric : String := "No specific issues detected. Continue regular monitoring."

/-- Lines 135–166: recommendation assembly. The top branch fires when
zones exist with `healthy > 90`; the no-data branch when `noNDVIData`
or the NDVI mean is null; otherwise one NDVI-tier message plus the
conditional NDWI/NDRE/EVI messages. The final empty-list guard of
line 164 is kept as in the code. -/
def recommendationsOf (u : UpstreamData) : List String :=
  let zones := finalHealthZones u
  let recs : List String :=
    if (match zones with
        | some z => decide (z.healthy > 90)
        | none => false) = true then
      [recPositive]
    else if noNDVIDataOf u.ndvi ∨ u.ndvi = none then
      [recNoData]
    else
      let ndvi := u.ndvi.getD 0
      let base := if ndvi < 3/10 then [recNdviLow]
        else if ndvi > 3/5 then [recNdviHigh]
        else [recNdviMid]
      let withNdwi := base ++
        (match u.ndwi with
         | none => []
         | some w => if w < 1/5 then [recNdwiLow]
             else if w > 1/2 then [recNdwiHigh] else [])
      let withNdre := withNdwi ++
        (match u.ndre with
         | none => []
         | some r => if r < 1/5 then [recNdreLow] else [])
      withNdre ++
        (match u.evi with
         | none => []
         | some e => if e < 1/5 then [recEviLow] else [])
  if recs = [] then [recGeneric] else recs

structure Summary where
  field_area_hectares : ℚ
  avg_ndvi : Option ℚ
  avg_evi : Option ℚ
  avg_ndwi : Option ℚ
  avg_ndre : Option ℚ
  health_zones : Option HealthZones
  recommendations : List String
  analysis_date : String
  image_count : ℕ
  overlay_url : Option String
deriving DecidableEq, Repr

structure ResultData where
  summary : Summary
  geojson_overlay : RawGeometry
deriving DecidableEq, Repr

/-- Lines 170–184: the `result` object. `field_area_hectares` and
`image_count` are written as the literals `8.7` and `12`;
`overlay_url` is the `null` of line 168. -/
def analyze (u : UpstreamData) (date : String) (g : RawGeometry) : ResultData :=
  { summary :=
      { field_area_hectares := 87/10
        avg_ndvi := u.ndvi
        avg_evi := u.evi
        avg_ndwi := u.ndwi
        avg_ndre := u.ndre
        health_zones := finalHealthZones u
        recommendations := recommendationsOf u
        analysis_date := date
        image_count := 12
        overlay_url := none }
    geojson_overlay := g }

/-! ## Response envelope and the two POST handlers

`createResponse` (identical in both files) spreads `data` into the
object iff the argument is defined; `timestamp` is the construction
time, modelled as a string the handler is given. -/

structure Envelope (α : Type) where
  success : Bool
  message : String
  timestamp : String
  data : Option α
deriving DecidableEq, Repr

def createResponse {α : Type} (success : Bool) (message : String)
    (now : String) (data : Option α) : Envelope α :=
  { success := success, message := message, timestamp := now, data := data }

/-- Environment configuration the handlers read. -/
structure Env where
  geePrivateKey : Option String
  geeClientEmail : Option String
  geeProjectId : Option String
deriving DecidableEq, Repr

/-- The outcome of `await req.json()` as the handlers distinguish it:
the parse threw (message of the thrown error), it produced a falsy
value, or it produced an object whose `geometry` property is read. -/
inductive ParsedBody where
  | parseFail (msg : String)
  | nullData
  | withGeometry (geometry : Option RawGeometry)
deriving DecidableEq, Repr

structure Request where
  contentType : String
  body : ParsedBody
deriving DecidableEq, Repr

/-- Outcomes of the external calls, supplied as an oracle:
`authOk`/`reductions` for the SDK variant (`part_002`),
`tokenRes`/`computeValue` for the REST variant (`route.ts`).
A `.error msg` carries the message of the rejection/thrown error. -/
structure Upstream where
  authOk : Except String Unit
  reductions : Except String UpstreamData
  tokenRes : Except String String
  computeValue : Except String (Option ℚ)
deriving Repr

/-- Observable steps of a handler run: the two provider-credential
network calls, the imagery compute call, and the point at which
`validateGeometry` runs. -/
inductive Event where
  | tokenCall
  | authCall
  | computeCall
  | validationCheck
deriving DecidableEq, Repr

/-- Events that reach the external imagery provider (including
credential/token acquisition). -/
def Event.isExternal : Event → Bool
  | .tokenCall => true
  | .authCall => true
  | .computeCall => true
  | .validationCheck => false

structure HandlerOut (α : Type) where
  trace : List Event
  status : ℕ
  response : Envelope α
deriving Repr

/-- `error.message || 'Internal server error'`: the JS `||` falls back
on the empty string too. -/
def errMsg (m : String) : String :=
  if m = "" then "Internal server error" else m

/-- The `POST` handler of `src/unnamed/part_002` (lines 32–198):
credential presence check, content-type check, body parse, geometry
presence check, `validateGeometry`, then `authenticateViaPrivateKey` +
`initialize`, then the five reductions, then the result assembly; any
throw is caught and mapped to a 500 envelope. -/
def eePost (env : Env) (req : Request) (up : Upstream) (now date : String) :
    HandlerOut ResultData :=
  if env.geePrivateKey.isNone ∨ env.geeClientEmail.isNone ∨ env.geeProjectId.isNone then
    ⟨[], 500, createResponse false (errMsg "Missing required GEE credentials") now none⟩
  else if req.contentType ≠ "application/json" then
    ⟨[], 400, createResponse false "Request must be JSON" now none⟩
  else
    match req.body with
    | .parseFail m => ⟨[], 500, createResponse false (errMsg m) now none⟩
    | .nullData => ⟨[], 400, createResponse false "No geometry provided" now none⟩
    | .withGeometry none => ⟨[], 400, createResponse false "No geometry provided" now none⟩
    | .withGeometry (some g) =>
      let v := validateGeometry (some g)
      if v.1 = false then
        ⟨[.validationCheck], 400, createResponse false v.2 now none⟩
      else
        match up.authOk with
        | .error m =>
          ⟨[.validationCheck, .authCall], 500, createResponse false (errMsg m) now none⟩
        | .ok _ =>
          match up.reductions with
          | .error m =>
            ⟨[.validationCheck, .authCall, .computeCall], 500,
              createResponse false (errMsg m) now none⟩
          | .ok u =>
            ⟨[.validationCheck, .authCall, .computeCall], 200,
              createResponse true "Analysis completed" now (some (analyze u date g))⟩

/-- The `data` payload of the REST-variant handler. -/
structure RouteResult where
  ndvi : Option ℚ
  recommendations : List String
deriving DecidableEq, Repr

/-- The `POST` handler of `src/app/api/analyze_field/route.ts`
(lines 50–117). `getEarthEngineToken` runs first: with credentials
present it performs the OAuth network call (`jwt.authorize`) before
the content-type check and before `validateGeometry`. -/
def routePost (env : Env) (req : Request) (up : Upstream) (now : String) :
    HandlerOut RouteResult :=
  if env.geePrivateKey.isNone ∨ env.geeClientEmail.isNone then
    ⟨[], 500,
      createResponse false
        (errMsg "Missing GEE credentials. Ensure GEE_PRIVATE_KEY and GEE_CLIENT_EMAIL are set.")
        now none⟩
  else
    match up.tokenRes with
    | .error m => ⟨[.tokenCall], 500, createResponse false (errMsg m) now none⟩
    | .ok _ =>
      if env.geeProjectId.isNone then
        ⟨[.tokenCall], 500,
          createResponse false (errMsg "Missing GEE_PROJECT_ID environment variable.") now none⟩
      else if req.contentType ≠ "application/json" then
        ⟨[.tokenCall], 400, createResponse false "Request must be JSON" now none⟩
      else
        match req.body with
        | .parseFail m => ⟨[.tokenCall], 500, createResponse false (errMsg m) now none⟩
        | .nullData => ⟨[.tokenCall], 400, createResponse false "No data provided" now none⟩
        | .withGeometry g =>
          let v := validateGeometry g
          if v.1 = false then
            ⟨[.tokenCall, .validationCheck], 400, createResponse false v.2 now none⟩
          else
            match up.computeValue with
            | .error m =>
              ⟨[.tokenCall, .validationCheck, .computeCall], 500,
                createResponse false (errMsg m) now none⟩
            | .ok value =>
              ⟨[.tokenCall, .validationCheck, .computeCall], 200,
                createResponse true "Field analysis completed successfully" now
                  (some ⟨value,
                    if (match value with
                        | some q => decide (q > 1/2)
                        | none => false) = true then
                      ["Good vegetation health."]
                    else ["Monitor for stress."]⟩)⟩

/-! ## Spec-side reformulations used to state the claims -/

/-- Per-class count sums as the spec words them: counts of buckets with
`mean > 0.3`. -/
def healthySum (L : List (ℚ × ℚ)) : ℚ :=
  ((L.filter fun p => decide (3/10 < p.1)).map Prod.snd).sum

/-- Counts of buckets with `0.15 < mean ≤ 0.3`. -/
def moderateSum (L : List (ℚ × ℚ)) : ℚ :=
  ((L.filter fun p => decide (3/20 < p.1 ∧ p.1 ≤ 3/10)).map Prod.snd).sum

/-- Counts of buckets with `mean ≤ 0.15`. -/
def stressedSum (L : List (ℚ × ℚ)) : ℚ :=
  ((L.filter fun p => decide (p.1 ≤ 3/20)).map Prod.snd).sum

/-- A coordinate the validator's checks actually flag: not a 2-element
array, or a pair whose coerced entries fail a bounds comparison. A
pair whose entries all compare false — in particular any pair with
NaN-coercing entries, such as `["a","b"]` — is NOT offending: the
code accepts it. -/
def offendingCoord : Coord → Prop
  | Coord.malformed => True
  | Coord.pair lng lat =>
    (lng.lt (-180) || lng.gt 180 || lat.lt (-90) || lat.gt 90) = true

/-! ## Concrete fixtures shared by witnesses and counterexamples -/

def sampleRing : List Coord := [.numPair 0 0, .numPair 1 0, .numPair 1 1, .numPair 0 0]

def sampleGeom : RawGeometry := ⟨"Polygon", some [sampleRing]⟩

/-- Outer ring containing the claims' offending longitude-200 point. -/
def lng200Ring : List Coord := [.numPair 0 0, .numPair 200 10, .numPair 1 1, .numPair 0 0]

def lng200Geom : RawGeometry := ⟨"Polygon", some [lng200Ring]⟩

def lat95Geom : RawGeometry :=
  ⟨"Polygon", some [[.numPair 0 0, .numPair 1 (-95), .numPair 1 1, .numPair 0 0]]⟩

/-- A ring whose second coordinate is a 2-element array of non-numeric
entries (for example `["a","b"]`): both coercions are NaN, so every
bounds comparison is false and the validator accepts the ring. -/
def nanGeom : RawGeometry :=
  ⟨"Polygon", some [[.numPair 0 0, .pair .nan .nan, .numPair 1 1, .numPair 0 0]]⟩

def goodEnv : Env := ⟨some "key", some "email", some "project"⟩

def goodReq : Request := ⟨"application/json", .withGeometry (some sampleGeom)⟩

def lng200Req : Request := ⟨"application/json", .withGeometry (some lng200Geom)⟩

def sampleHist : Hist := ⟨[2/5, 1/5, 1/20], [50, 30, 20]⟩

def sampleData : UpstreamData := ⟨some (7/10), none, none, none, some sampleHist⟩

def okUpstream : Upstream := ⟨.ok (), .ok sampleData, .ok "token", .ok (some 1)⟩

/-- Upstream outcome with a zero-count histogram but a numeric NDVI
mean. -/
def zeroHistData : UpstreamData := ⟨some (7/10), none, none, none, some ⟨[2/5], [0]⟩⟩

def zeroHistUpstream : Upstream := ⟨.ok (), .ok zeroHistData, .ok "token", .ok (some 1)⟩

/-! ## Helper lemmas -/

/-- The shoelace loop equals the zip-form sum over consecutive pairs. -/
theorem shoelaceSum_eq_pairSum (l : List (ℝ × ℝ)) : shoelaceSum l = pairSum l := by
  induction l with
  | nil => simp [shoelaceSum, pairSum]
  | cons p t ih =>
    cases t with
    | nil => simp [shoelaceSum, pairSum]
    | cons q r =>
      simp only [shoelaceSum, pairSum, List.tail_cons, List.zip_cons_cons,
        List.map_cons, List.sum_cons] at ih ⊢
      rw [ih]

/-- Appending a vertex extends the shoelace sum by the cross term of
the old last vertex with the new one. -/
theorem shoelaceSum_append_singleton (l : List (ℝ × ℝ)) (a : ℝ × ℝ) (hl : l ≠ []) :
    shoelaceSum (l ++ [a]) =
      shoelaceSum l + ((l.getLastD (0, 0)).1 * a.2 - a.1 * (l.getLastD (0, 0)).2) := by
  induction l with
  | nil => exact absurd rfl hl
  | cons p t ih =>
    cases t with
    | nil => simp [shoelaceSum]
    | cons q r =>
      have h2 : (q :: r : List (ℝ × ℝ)) ≠ [] := by simp
      have hstep : shoelaceSum ((p :: q :: r) ++ [a])
          = (p.1 * q.2 - q.1 * p.2) + shoelaceSum ((q :: r) ++ [a]) := rfl
      have hhead : shoelaceSum (p :: q :: r)
          = (p.1 * q.2 - q.1 * p.2) + shoelaceSum (q :: r) := rfl
      have hlast : (p :: q :: r).getLastD ((0 : ℝ), (0 : ℝ))
          = (q :: r).getLastD (0, 0) := by
        simp [List.getLastD_cons]
      rw [hstep, ih h2, hhead, hlast]
      ring

/-- Reversing the vertex list negates the shoelace sum. -/
theorem shoelaceSum_reverse (l : List (ℝ × ℝ)) :
    shoelaceSum l.reverse = -shoelaceSum l := by
  induction l with
  | nil => simp [shoelaceSum]
  | cons p t ih =>
    cases t with
    | nil => simp [shoelaceSum]
    | cons q r =>
      have hrev : (q :: r : List (ℝ × ℝ)).reverse ≠ [] := by simp
      have hlast : ((q :: r : List (ℝ × ℝ)).reverse).getLastD (0, 0) = q := by
        rw [List.getLastD_eq_getLast?, List.getLast?_reverse]
        rfl
      calc shoelaceSum ((p :: q :: r).reverse)
          = shoelaceSum ((q :: r).reverse ++ [p]) := by simp
        _ = shoelaceSum ((q :: r).reverse)
              + (((q :: r : List (ℝ × ℝ)).reverse.getLastD (0, 0)).1 * p.2
                 - p.1 * ((q :: r : List (ℝ × ℝ)).reverse.getLastD (0, 0)).2) :=
            shoelaceSum_append_singleton _ _ hrev
        _ = -shoelaceSum (q :: r) + (q.1 * p.2 - p.1 * q.2) := by rw [ih, hlast]
        _ = -shoelaceSum (p :: q :: r) := by
            rw [show shoelaceSum (p :: q :: r)
                = (p.1 * q.2 - q.1 * p.2) + shoelaceSum (q :: r) from rfl]
            ring

/-- The mean latitude is invariant under reversing the ring. -/
theorem avgLat_reverse (l : List (ℝ × ℝ)) : avgLat l.reverse = avgLat l := by
  simp [avgLat, List.map_reverse, List.sum_reverse]

/-- The classification loop, started from any accumulator, adds the
three per-class filtered sums. -/
theorem foldl_zoneStep (L : List (ℚ × ℚ)) :
    ∀ a b c : ℚ, L.foldl zoneStep (a, b, c)
      = (a + healthySum L, b + moderateSum L, c + stressedSum L) := by
  induction L with
  | nil => intro a b c; simp [healthySum, moderateSum, stressedSum]
  | cons p t ih =>
    intro a b c
    obtain ⟨m, cnt⟩ := p
    by_cases h1 : 3/10 < m
    · have hn2 : ¬(3/20 < m ∧ m ≤ 3/10) := fun h => absurd h1 (not_lt.mpr h.2)
      have hn3 : ¬(m ≤ 3/20) := fun h => absurd (h.trans (by norm_num)) (not_le.mpr h1)
      simp only [List.foldl_cons, zoneStep, if_pos h1, ih,
        healthySum, moderateSum, stressedSum, List.filter_cons]
      simp [h1, hn2, hn3]
      ring
    · by_cases h2 : 3/20 < m
      · have hp2 : 3/20 < m ∧ m ≤ 3/10 := ⟨h2, not_lt.mp h1⟩
        have hn3 : ¬(m ≤ 3/20) := not_le.mpr h2
        simp only [List.foldl_cons, zoneStep, if_neg h1, if_pos h2, ih,
          healthySum, moderateSum, stressedSum, List.filter_cons]
        simp [h1, hp2.1, hp2.2, hn3]
        ring
      · have hn2 : ¬(3/20 < m ∧ m ≤ 3/10) := fun h => absurd h.1 h2
        have hp3 : m ≤ 3/20 := not_lt.mp h2
        simp only [List.foldl_cons, zoneStep, if_neg h1, if_neg h2, ih,
          healthySum, moderateSum, stressedSum, List.filter_cons]
        simp [h1, h2, hp3]
        ring

/-- The three per-class sums partition the zipped counts. -/
theorem class_sums_partition (L : List (ℚ × ℚ)) :
    healthySum L + moderateSum L + stressedSum L = (L.map Prod.snd).sum := by
  induction L with
  | nil => simp [healthySum, moderateSum, stressedSum]
  | cons p t ih =>
    obtain ⟨m, cnt⟩ := p
    by_cases h1 : 3/10 < m
    · have hn3 : ¬(m ≤ 3/20) := fun h => absurd (h.trans (by norm_num)) (not_le.mpr h1)
      have hn2 : ¬(3/20 < m ∧ m ≤ 3/10) := fun h => absurd h1 (not_lt.mpr h.2)
      simp only [healthySum, moderateSum, stressedSum, List.filter_cons,
        List.map_cons, List.sum_cons] at ih ⊢
      simp [h1, hn2, hn3] at ih ⊢
      linarith
    · by_cases h2 : 3/20 < m
      · have hp2 : m ≤ 3/10 := not_lt.mp h1
        have hn3 : ¬(m ≤ 3/20) := not_le.mpr h2
        simp only [healthySum, moderateSum, stressedSum, List.filter_cons,
          List.map_cons, List.sum_cons] at ih ⊢
        simp [h1, h2, hp2, hn3] at ih ⊢
        linarith
      · have hp3 : m ≤ 3/20 := not_lt.mp h2
        simp only [healthySum, moderateSum, stressedSum, List.filter_cons,
          List.map_cons, List.sum_cons] at ih ⊢
        simp [h1, h2, hp3] at ih ⊢
        linarith

/-- Filtered-count sums are non-negative when every count is. -/
theorem classSum_nonneg (L : List (ℚ × ℚ)) (p : ℚ × ℚ → Bool)
    (h : ∀ c ∈ L.map Prod.snd, 0 ≤ c) :
    0 ≤ (((L.filter p).map Prod.snd)).sum := by
  apply List.sum_nonneg
  intro x hx
  apply h
  obtain ⟨q, hq, rfl⟩ := List.mem_map.mp hx
  exact List.mem_map.mpr ⟨q, List.mem_of_mem_filter hq, rfl⟩

/-- `healthZonesOf` on a positive-total histogram, in terms of the
per-class filtered sums. -/
theorem healthZonesOf_pos (h : Hist) (ht : 0 < h.counts.sum) :
    healthZonesOf (some h) =
      some ⟨jround (healthySum (h.bucketMeans.zip h.counts) / h.counts.sum * 100),
            jround (moderateSum (h.bucketMeans.zip h.counts) / h.counts.sum * 100),
            jround (stressedSum (h.bucketMeans.zip h.counts) / h.counts.sum * 100)⟩ := by
  simp only [healthZonesOf, zoneTotals, if_pos ht, foldl_zoneStep, zero_add]

/-- `Math.round` of a non-negative value is non-negative. -/
theorem jround_nonneg (q : ℚ) (h : 0 ≤ q) : 0 ≤ jround q := by
  have : (0 : ℚ) ≤ q + 1/2 := by linarith
  exact Int.floor_nonneg.mpr this

theorem jround_le (q : ℚ) : (jround q : ℚ) ≤ q + 1/2 := Int.floor_le _

theorem jround_gt (q : ℚ) : q - 1/2 < (jround q : ℚ) := by
  have := Int.sub_one_lt_floor (q + 1/2)
  unfold jround
  linarith

/-- The mean latitude of a non-empty ring with in-range latitudes is
in range. -/
theorem avgLat_mem (l : List (ℝ × ℝ)) (hne : l ≠ [])
    (hb : ∀ p ∈ l, -90 ≤ p.2 ∧ p.2 ≤ 90) :
    -90 ≤ avgLat l ∧ avgLat l ≤ 90 := by
  have hlen : 0 < (l.length : ℝ) := by
    have : 0 < l.length := List.length_pos.mpr hne
    exact_mod_cast this
  have hub : (l.map Prod.snd).sum ≤ (l.length : ℝ) * 90 := by
    have := List.sum_le_card_nsmul (l.map Prod.snd) 90 (by
      intro x hx
      obtain ⟨p, hp, rfl⟩ := List.mem_map.mp hx
      exact (hb p hp).2)
    simpa [nsmul_eq_mul] using this
  have hlb : -((l.length : ℝ) * 90) ≤ (l.map Prod.snd).sum := by
    have := List.card_nsmul_le_sum (l.map Prod.snd) (-90) (by
      intro x hx
      obtain ⟨p, hp, rfl⟩ := List.mem_map.mp hx
      exact (hb p hp).1)
    have h2 : ((l.map Prod.snd).length : ℝ) * (-90) ≤ (l.map Prod.snd).sum := by
      simpa [nsmul_eq_mul] using this
    simp only [List.length_map] at h2
    linarith
  constructor
  · rw [avgLat, le_div_iff₀ hlen]
    linarith
  · rw [avgLat, div_le_iff₀ hlen]
    linarith

/-! ## Claim theorems -/

/-- C1: for every response produced by either analyze_field POST
handler — success, validation failure, credential/upstream failure, or
malformed request — the `data` field is present in the envelope iff
`success` is true; every envelope also carries a `message` string and
a `timestamp` (both are total fields of the envelope, set at
construction). -/
theorem envelope_data_iff_success (env : Env) (req : Request) (up : Upstream)
    (now date : String) :
    ((eePost env req up now date).response.data ≠ none
      ↔ (eePost env req up now date).response.success = true)
    ∧ ((routePost env req up now).response.data ≠ none
      ↔ (routePost env req up now).response.success = true) := by
  constructor
  · unfold eePost
    repeat' split
    all_goals simp [createResponse]
    all_goals repeat' split
    all_goals simp [createResponse]
  · unfold routePost
    repeat' split
    all_goals simp [createResponse]
    all_goals repeat' split
    all_goals simp [createResponse]

/-- C1 witness: at a concrete success input and a concrete
validation-failure input, the invariant holds as the theorem states. -/
theorem envelope_data_iff_success_witness :
    ((eePost goodEnv goodReq okUpstream "now" "date").response.data ≠ none
      ↔ (eePost goodEnv goodReq okUpstream "now" "date").response.success = true)
    ∧ ((routePost goodEnv goodReq okUpstream "now").response.data ≠ none
      ↔ (routePost goodEnv goodReq okUpstream "now").response.success = true) :=
  envelope_data_iff_success goodEnv goodReq okUpstream "now" "date"

/-- C10: every successful analysis response of the part_002 handler
carries `field_area_hectares = 8.7` and `image_count = 12` — constants
independent of the submitted geometry and of the provider's data. -/
theorem summary_constants (env : Env) (req : Request) (up : Upstream)
    (now date : String) (r : ResultData)
    (h : (eePost env req up now date).response.data = some r) :
    r.summary.field_area_hectares = 87/10 ∧ r.summary.image_count = 12 := by
  unfold eePost at h
  repeat' split at h
  all_goals simp only [createResponse] at h
  all_goals repeat' split at h
  all_goals simp at h
  all_goals subst h
  all_goals exact ⟨rfl, rfl⟩

/-- C10 witness: a concrete successful analysis, with the constants
evaluated. -/
theorem summary_constants_witness :
    (eePost goodEnv goodReq okUpstream "now" "date").response.data
      = some (analyze sampleData "date" sampleGeom)
    ∧ (analyze sampleData "date" sampleGeom).summary.field_area_hectares = 87/10
    ∧ (analyze sampleData "date" sampleGeom).summary.image_count = 12 :=
  ⟨rfl, summary_constants goodEnv goodReq okUpstream "now" "date" _ rfl⟩

/-- C3: for every NDVI histogram with a positive total count, the
health-zone derivation classifies buckets by mean (`> 0.3` healthy,
`0.15 < mean ≤ 0.3` moderate, else stressed), sums counts per class
and returns each class as the rounded percentage of the total; in
particular means `[0.4, 0.2, 0.05]` with counts `[50, 30, 20]` give
`{healthy: 50, moderate: 30, stressed: 20}`. -/
theorem health_zone_derivation (h : Hist) (ht : 0 < h.counts.sum) :
    healthZonesOf (some h) =
      some ⟨jround (healthySum (h.bucketMeans.zip h.counts) / h.counts.sum * 100),
            jround (moderateSum (h.bucketMeans.zip h.counts) / h.counts.sum * 100),
            jround (stressedSum (h.bucketMeans.zip h.counts) / h.counts.sum * 100)⟩
    ∧ healthZonesOf (some sampleHist) = some ⟨50, 30, 20⟩ := by
  refine ⟨healthZonesOf_pos h ht, ?_⟩
  norm_num [healthZonesOf, sampleHist, zoneTotals, zoneStep, jround]

/-- C3 witness: the general formula instantiated at the concrete
histogram of the claim. -/
theorem health_zone_derivation_witness :
    0 < sampleHist.counts.sum
    ∧ (healthZonesOf (some sampleHist) =
        some ⟨jround (healthySum (sampleHist.bucketMeans.zip sampleHist.counts)
                / sampleHist.counts.sum * 100),
              jround (moderateSum (sampleHist.bucketMeans.zip sampleHist.counts)
                / sampleHist.counts.sum * 100),
              jround (stressedSum (sampleHist.bucketMeans.zip sampleHist.counts)
                / sampleHist.counts.sum * 100)⟩
      ∧ healthZonesOf (some sampleHist) = some ⟨50, 30, 20⟩) :=
  ⟨by norm_num [sampleHist], health_zone_derivation sampleHist (by norm_num [sampleHist])⟩

/-- C4 counterexample: an analysis whose NDVI histogram counts sum to
zero but whose NDVI mean reduction is a number. `health_zones` is null
as claimed, but the recommendations are the NDVI-tier advice, not the
single "no data" message — refuting "regardless of the other index
values". -/
theorem zero_hist_counterexample :
    (⟨[2/5], [0]⟩ : Hist).counts.sum = 0
    ∧ (analyze zeroHistData "date" sampleGeom).summary.health_zones = none
    ∧ (analyze zeroHistData "date" sampleGeom).summary.recommendations = [recNdviHigh]
    ∧ recNdviHigh ≠ recNoData := by
  refine ⟨by norm_num, ?_, ?_, by simp [recNdviHigh, recNoData]⟩
  · norm_num [analyze, finalHealthZones, noNDVIDataOf, zeroHistData, healthZonesOf]
  · norm_num [analyze, recommendationsOf, finalHealthZones, noNDVIDataOf,
      zeroHistData, healthZonesOf]
    simp

/-- C4 amended: when the NDVI histogram's counts sum to zero,
`health_zones` is null; when additionally the NDVI mean reduction is
null (the case when no pixels are usable), the recommendations are
exactly the single "no data" message. -/
theorem zero_hist_amended (u : UpstreamData) (date : String) (g : RawGeometry)
    (h : Hist) (hh : u.hist = some h) (hz : h.counts.sum = 0) :
    (analyze u date g).summary.health_zones = none
    ∧ (u.ndvi = none → (analyze u date g).summary.recommendations = [recNoData]) := by
  have hzs : healthZonesOf u.hist = none := by
    rw [hh]
    simp [healthZonesOf, hz]
  constructor
  · by_cases hn : noNDVIDataOf u.ndvi = true
    · simp [analyze, finalHealthZones, hn]
    · simp [analyze, finalHealthZones, hn, hzs]
  · intro hnone
    simp [analyze, recommendationsOf, finalHealthZones, noNDVIDataOf, hnone, hzs,
      recNoData]

/-- C4 witness: the amended statement at a concrete zero-count
histogram with a null NDVI mean. -/
theorem zero_hist_amended_witness :
    (⟨none, none, none, none, some ⟨[2/5], [0]⟩⟩ : UpstreamData).hist = some ⟨[2/5], [0]⟩
    ∧ (⟨[2/5], [0]⟩ : Hist).counts.sum = 0
    ∧ ((analyze ⟨none, none, none, none, some ⟨[2/5], [0]⟩⟩ "date" sampleGeom).summary.health_zones = none
      ∧ ((⟨none, none, none, none, some ⟨[2/5], [0]⟩⟩ : UpstreamData).ndvi = none →
          (analyze ⟨none, none, none, none, some ⟨[2/5], [0]⟩⟩ "date" sampleGeom).summary.recommendations = [recNoData])) :=
  ⟨rfl, by norm_num,
   zero_hist_amended ⟨none, none, none, none, some ⟨[2/5], [0]⟩⟩ "date" sampleGeom
     ⟨[2/5], [0]⟩ rfl (by norm_num)⟩

/-- C9 counterexample: a histogram with non-negative counts and
positive total whose `bucketMeans` is shorter than its `counts` (the
classification loop runs over the shorter length) yields zones summing
to 50, outside {99, 100, 101}. -/
theorem zone_sum_counterexample :
    healthZonesOf (some ⟨[2/5], [50, 50]⟩) = some ⟨50, 0, 0⟩
    ∧ (⟨[2/5], [50, 50]⟩ : Hist).counts.sum = 100
    ∧ ((50 : ℤ) + 0 + 0 = 50
      ∧ ¬((50 : ℤ) = 99 ∨ (50 : ℤ) = 100 ∨ (50 : ℤ) = 101)) := by
  refine ⟨?_, by norm_num, by norm_num, by decide⟩
  norm_num [healthZonesOf, zoneTotals, zoneStep, jround]

/-- C9 amended: whenever `health_zones` is derived from a histogram
with non-negative counts, positive total, and `bucketMeans` and
`counts` of equal length, the three values are non-negative integers
whose sum lies in {99, 100, 101}. -/
theorem zone_sum_amended (h : Hist) (z : HealthZones)
    (hlen : h.bucketMeans.length = h.counts.length)
    (hnn : ∀ c ∈ h.counts, 0 ≤ c)
    (ht : 0 < h.counts.sum)
    (hz : healthZonesOf (some h) = some z) :
    0 ≤ z.healthy ∧ 0 ≤ z.moderate ∧ 0 ≤ z.stressed
    ∧ (z.healthy + z.moderate + z.stressed = 99
       ∨ z.healthy + z.moderate + z.stressed = 100
       ∨ z.healthy + z.moderate + z.stressed = 101) := by
  rw [healthZonesOf_pos h ht, Option.some.injEq] at hz
  subst hz
  have hmap : (h.bucketMeans.zip h.counts).map Prod.snd = h.counts :=
    List.map_snd_zip _ _ (le_of_eq hlen.symm)
  have hpart : healthySum (h.bucketMeans.zip h.counts)
      + moderateSum (h.bucketMeans.zip h.counts)
      + stressedSum (h.bucketMeans.zip h.counts) = h.counts.sum := by
    rw [class_sums_partition, hmap]
  have hmem : ∀ c ∈ (h.bucketMeans.zip h.counts).map Prod.snd, 0 ≤ c := by
    rw [hmap]; exact hnn
  have hh : 0 ≤ healthySum (h.bucketMeans.zip h.counts) := classSum_nonneg _ _ hmem
  have hm : 0 ≤ moderateSum (h.bucketMeans.zip h.counts) := classSum_nonneg _ _ hmem
  have hs : 0 ≤ stressedSum (h.bucketMeans.zip h.counts) := classSum_nonneg _ _ hmem
  set T := h.counts.sum with hT
  set a := healthySum (h.bucketMeans.zip h.counts) / T * 100 with ha
  set b := moderateSum (h.bucketMeans.zip h.counts) / T * 100 with hb
  set c := stressedSum (h.bucketMeans.zip h.counts) / T * 100 with hc
  have habc : a + b + c = 100 := by
    rw [ha, hb, hc]
    field_simp
    linarith [hpart]
  have ha0 : 0 ≤ a := by
    rw [ha]
    positivity
  have hb0 : 0 ≤ b := by
    rw [hb]
    positivity
  have hc0 : 0 ≤ c := by
    rw [hc]
    positivity
  refine ⟨jround_nonneg a ha0, jround_nonneg b hb0, jround_nonneg c hc0, ?_⟩
  have h1 := jround_le a
  have h2 := jround_le b
  have h3 := jround_le c
  have h4 := jround_gt a
  have h5 := jround_gt b
  have h6 := jround_gt c
  have hub : jround a + jround b + jround c ≤ 101 := by
    by_contra hgt
    push_neg at hgt
    have : (102 : ℚ) ≤ ((jround a + jround b + jround c : ℤ) : ℚ) := by
      exact_mod_cast hgt
    push_cast at this
    linarith
  have hlb : 99 ≤ jround a + jround b + jround c := by
    by_contra hlt
    push_neg at hlt
    have hle : jround a + jround b + jround c ≤ 98 := by omega
    have : ((jround a + jround b + jround c : ℤ) : ℚ) ≤ 98 := by exact_mod_cast hle
    push_cast at this
    linarith
  dsimp only
  omega

/-- C9 witness: the amended bound at the concrete three-bucket
histogram. -/
theorem zone_sum_amended_witness :
    sampleHist.bucketMeans.length = sampleHist.counts.length
    ∧ (∀ c ∈ sampleHist.counts, 0 ≤ c)
    ∧ 0 < sampleHist.counts.sum
    ∧ healthZonesOf (some sampleHist) = some ⟨50, 30, 20⟩
    ∧ (0 ≤ (50 : ℤ) ∧ 0 ≤ (30 : ℤ) ∧ 0 ≤ (20 : ℤ)
      ∧ ((50 : ℤ) + 30 + 20 = 99 ∨ (50 : ℤ) + 30 + 20 = 100
         ∨ (50 : ℤ) + 30 + 20 = 101)) := by
  have h1 : sampleHist.bucketMeans.length = sampleHist.counts.length := rfl
  have h2 : ∀ c ∈ sampleHist.counts, 0 ≤ c := by
    intro c hc
    simp only [sampleHist, List.mem_cons, List.not_mem_nil, or_false] at hc
    rcases hc with rfl | rfl | rfl <;> norm_num
  have h3 : 0 < sampleHist.counts.sum := by norm_num [sampleHist]
  have h4 : healthZonesOf (some sampleHist) = some ⟨50, 30, 20⟩ := by
    norm_num [healthZonesOf, sampleHist, zoneTotals, zoneStep, jround]
  exact ⟨h1, h2, h3, h4, zone_sum_amended sampleHist ⟨50, 30, 20⟩ h1 h2 h3 h4⟩

/-- C6 counterexample: the `map-component.tsx` area calculator guards
with `< 3`, not `< 4`: on the 3-point ring `[[0,0],[1,0],[0,1]]` its
fallback branch returns a non-zero area, refuting "every input ring
with fewer than 4 points returns exactly 0" for that cited variant. -/
theorem short_ring_counterexample :
    ([((0 : ℚ), (0 : ℚ)), (1, 0), (0, 1)] : List (ℚ × ℚ)).length < 4
    ∧ mapComponentArea [((0 : ℚ), (0 : ℚ)), (1, 0), (0, 1)] ≠ 0 := by
  constructor
  · norm_num
  · norm_num [mapComponentArea, Finset.sum_range_succ]

/-- C6 amended: the `part_000` area calculator returns exactly 0 for
every ring with fewer than 4 points (including the empty ring); the
`map-component.tsx` variant returns 0 only for rings with fewer than
3 points. -/
theorem short_ring_amended (c1 : List (ℝ × ℝ)) (c2 : List (ℚ × ℚ))
    (h1 : c1.length < 4) (h2 : c2.length < 3) :
    calculatePolygonArea c1 = 0 ∧ mapComponentArea c2 = 0 := by
  constructor
  · simp [calculatePolygonArea, h1]
  · simp [mapComponentArea, h2]

/-- C6 witness: the empty ring evaluates to 0 under both calculators. -/
theorem short_ring_amended_witness :
    ([] : List (ℝ × ℝ)).length < 4 ∧ ([] : List (ℚ × ℚ)).length < 3
    ∧ (calculatePolygonArea ([] : List (ℝ × ℝ)) = 0
      ∧ mapComponentArea ([] : List (ℚ × ℚ)) = 0) :=
  ⟨by norm_num, by norm_num, short_ring_amended [] [] (by norm_num) (by norm_num)⟩

/-- C8 counterexample: the claim fails on both validators. The
server-side `validateGeometry` accepts a Polygon whose outer ring
contains a 2-element pair of non-numeric entries (`["a","b"]`: the
array/length check passes and every NaN bounds comparison is false),
so not every non-numeric 2-element pair is rejected; and the
client-side `validateField` accepts a field whose ring contains
longitude 200, since it never inspects coordinate values. -/
theorem validator_gap_counterexample :
    validateGeometry (some nanGeom) = (true, "Valid geometry")
    ∧ (Coord.pair .nan .nan) ∈ ([[.numPair 0 0, .pair .nan .nan, .numPair 1 1,
        .numPair 0 0]].headD [])
    ∧ nanGeom.coords = some [[.numPair 0 0, .pair .nan .nan, .numPair 1 1, .numPair 0 0]]
    ∧ validateField ⟨"Polygon", [lng200Ring], some 5⟩ = none
    ∧ (Coord.numPair 200 10) ∈ lng200Ring := by
  refine ⟨by decide, by simp, rfl, ?_, by simp [lng200Ring, Coord.numPair]⟩
  norm_num [validateField, lng200Ring]

/-- C8 amended: the server-side validator rejects every geometry of
type Polygon whose outer ring contains an offending coordinate — one
that is not a 2-element array, or whose coerced longitude comparison
puts it outside [-180, 180] or latitude outside [-90, 90] — and on the
first offending pair the message names the offending values
(longitude 200 and latitude -95 in particular). It accepts 2-element
pairs of non-numeric entries, whose NaN comparisons are all false, and
the client-side check inspects only geometry type, ring length and
area, accepting any coordinate values. -/
theorem server_validator_rejects (g : RawGeometry) (rings : List (List Coord))
    (c : Coord) (htype : g.type = "Polygon") (hc : g.coords = some rings)
    (hmem : c ∈ rings.headD []) (hbad : offendingCoord c) :
    (validateGeometry (some g)).1 = false
    ∧ validateGeometry (some lng200Geom)
        = (false, "Invalid coordinates: longitude 200, latitude 10")
    ∧ validateGeometry (some lat95Geom)
        = (false, "Invalid coordinates: longitude 1, latitude -95")
    ∧ validateGeometry (some nanGeom) = (true, "Valid geometry")
    ∧ validateField ⟨"Polygon", [lng200Ring], some 5⟩ = none := by
  refine ⟨?_, by decide, by decide, by decide,
    by norm_num [validateField, lng200Ring]⟩
  have hring : ∀ ring : List Coord, c ∈ ring → (checkRing ring).1 = false := by
    intro ring
    induction ring with
    | nil => intro hmem2; exact absurd hmem2 (List.not_mem_nil c)
    | cons a t ih =>
      intro hmem2
      cases a with
      | malformed => simp [checkRing]
      | pair lng lat =>
        by_cases hb : (lng.lt (-180) || lng.gt 180 || lat.lt (-90) || lat.gt 90) = true
        · simp [checkRing, hb]
        · have hca : c ≠ Coord.pair lng lat := by
            intro hEq
            subst hEq
            exact hb hbad
          have hmt : c ∈ t := by
            rcases List.mem_cons.mp hmem2 with h | h
            · exact absurd h hca
            · exact h
          simp [checkRing, hb, ih hmt]
  simp only [validateGeometry, hc]
  rw [if_neg (by simp [htype])]
  by_cases hlen : rings.length < 1 ∨ (rings.headD []).length < 4
  · rw [if_pos hlen]
  · rw [if_neg hlen]
    exact hring _ hmem

/-- C8 witness: the rejection applied to the concrete longitude-200
geometry, whose offending pair sits in its outer ring. -/
theorem server_validator_rejects_witness :
    lng200Geom.type = "Polygon" ∧ lng200Geom.coords = some [lng200Ring]
    ∧ (Coord.numPair 200 10) ∈ ([lng200Ring].headD [])
    ∧ offendingCoord (Coord.numPair 200 10)
    ∧ ((validateGeometry (some lng200Geom)).1 = false
      ∧ validateGeometry (some lng200Geom)
          = (false, "Invalid coordinates: longitude 200, latitude 10")
      ∧ validateGeometry (some lat95Geom)
          = (false, "Invalid coordinates: longitude 1, latitude -95")
      ∧ validateGeometry (some nanGeom) = (true, "Valid geometry")
      ∧ validateField ⟨"Polygon", [lng200Ring], some 5⟩ = none) := by
  have hbad : offendingCoord (Coord.numPair 200 10) := by
    simp only [Coord.numPair, offendingCoord]
    decide
  exact ⟨rfl, rfl, by simp [lng200Ring, Coord.numPair], hbad,
    server_validator_rejects lng200Geom [lng200Ring] (Coord.numPair 200 10) rfl rfl
      (by simp [lng200Ring, Coord.numPair]) hbad⟩

/-- C7 counterexample: for the 4-point ring
`[[0,170],[1,170],[1,190],[0,190]]` (latitudes outside [-90, 90], which
the calculator does not reject) the mean latitude is 180°, the cosine
factor is -1, and the computed area is negative — refuting
unconditional non-negativity for rings with at least 4 points. -/
theorem area_negative_counterexample :
    ([((0 : ℝ), (170 : ℝ)), (1, 170), (1, 190), (0, 190)] : List (ℝ × ℝ)).length = 4
    ∧ calculatePolygonArea [((0 : ℝ), (170 : ℝ)), (1, 170), (1, 190), (0, 190)] < 0 := by
  refine ⟨by norm_num, ?_⟩
  have hshoe : shoelaceSum [((0 : ℝ), (170 : ℝ)), (1, 170), (1, 190), (0, 190)] = 40 := by
    norm_num [shoelaceSum]
  have hlat : avgLat [((0 : ℝ), (170 : ℝ)), (1, 170), (1, 190), (0, 190)] = 180 := by
    norm_num [avgLat]
  rw [calculatePolygonArea, if_neg (by norm_num)]
  rw [hshoe, hlat]
  have hpi : (180 : ℝ) * (Real.pi / 180) = Real.pi := by
    field_simp
  rw [hpi]
  dsimp only
  rw [Real.cos_pi]
  norm_num

/-- C7 amended: for every ring with at least 4 points the area is
invariant under reversing the vertex order; and when additionally all
latitudes lie in [-90, 90] (every ring the validators accept), the
area is non-negative. -/
theorem area_nonneg_and_reverse (coords : List (ℝ × ℝ)) (hlen : 4 ≤ coords.length) :
    calculatePolygonArea coords.reverse = calculatePolygonArea coords
    ∧ ((∀ p ∈ coords, -90 ≤ p.2 ∧ p.2 ≤ 90) → 0 ≤ calculatePolygonArea coords) := by
  constructor
  · unfold calculatePolygonArea
    rw [List.length_reverse, shoelaceSum_reverse, abs_neg, avgLat_reverse]
  · intro hb
    have hne : coords ≠ [] := by
      intro hEq
      rw [hEq] at hlen
      simp at hlen
    obtain ⟨hlo, hhi⟩ := avgLat_mem coords hne hb
    have hcos : 0 ≤ Real.cos (avgLat coords * (Real.pi / 180)) := by
      apply Real.cos_nonneg_of_mem_Icc
      have hpi := Real.pi_pos
      constructor
      · have : -(Real.pi / 2) = -90 * (Real.pi / 180) := by ring
        rw [this]
        apply mul_le_mul_of_nonneg_right hlo
        positivity
      · have : Real.pi / 2 = 90 * (Real.pi / 180) := by ring
        rw [this]
        apply mul_le_mul_of_nonneg_right hhi
        positivity
    unfold calculatePolygonArea
    rw [if_neg (by omega)]
    have habs : 0 ≤ |shoelaceSum coords| := abs_nonneg _
    positivity

/-- C7 witness: reversal invariance and non-negativity at the concrete
unit square near the equator. -/
theorem area_nonneg_and_reverse_witness :
    4 ≤ ([((0 : ℝ), (0 : ℝ)), (1, 0), (1, 1), (0, 1)] : List (ℝ × ℝ)).length
    ∧ (calculatePolygonArea ([((0 : ℝ), (0 : ℝ)), (1, 0), (1, 1), (0, 1)] : List (ℝ × ℝ)).reverse
        = calculatePolygonArea [((0 : ℝ), (0 : ℝ)), (1, 0), (1, 1), (0, 1)]
      ∧ ((∀ p ∈ ([((0 : ℝ), (0 : ℝ)), (1, 0), (1, 1), (0, 1)] : List (ℝ × ℝ)), -90 ≤ p.2 ∧ p.2 ≤ 90)
          → 0 ≤ calculatePolygonArea [((0 : ℝ), (0 : ℝ)), (1, 0), (1, 1), (0, 1)])) :=
  ⟨by norm_num,
   area_nonneg_and_reverse [((0 : ℝ), (0 : ℝ)), (1, 0), (1, 1), (0, 1)] (by norm_num)⟩

/-- C5 counterexample: on the unclosed 4-point ring
`[[1,1],[3,1],[3,2],[2,4]]` the loop's sum is 9 but the spec's
wraparound-inclusive sum is 7, and the cosine factor at mean latitude
2° is positive, so the code's area differs from the claimed formula. -/
theorem area_formula_counterexample :
    calculatePolygonArea [((1 : ℝ), (1 : ℝ)), (3, 1), (3, 2), (2, 4)]
      ≠ areaSpecWithWrap [((1 : ℝ), (1 : ℝ)), (3, 1), (3, 2), (2, 4)] := by
  have hsh : shoelaceSum [((1 : ℝ), (1 : ℝ)), (3, 1), (3, 2), (2, 4)] = 9 := by
    norm_num [shoelaceSum]
  have hps : pairSum [((1 : ℝ), (1 : ℝ)), (3, 1), (3, 2), (2, 4)] = 9 := by
    rw [← shoelaceSum_eq_pairSum]
    exact hsh
  have hwt : wrapTerm [((1 : ℝ), (1 : ℝ)), (3, 1), (3, 2), (2, 4)] = -2 := by
    norm_num [wrapTerm, List.getLastD_cons]
  have hlat : avgLat [((1 : ℝ), (1 : ℝ)), (3, 1), (3, 2), (2, 4)] = 2 := by
    norm_num [avgLat]
  have hcos : 0 < Real.cos (2 * (Real.pi / 180)) := by
    have hpi := Real.pi_pos
    apply Real.cos_pos_of_mem_Ioo
    constructor
    · have : (0 : ℝ) < 2 * (Real.pi / 180) := by positivity
      linarith
    · linarith
  unfold calculatePolygonArea areaSpecWithWrap
  rw [if_neg (by norm_num), if_neg (by norm_num)]
  dsimp only
  rw [hps, hwt, hsh, hlat]
  intro hEq
  rw [show (9 : ℝ) + -2 = 7 by norm_num] at hEq
  rw [show |(9 : ℝ)| = 9 by norm_num, show |(7 : ℝ)| = 7 by norm_num] at hEq
  nlinarith [hcos]

/-- C5 amended: for every ring with at least 4 points the area equals
|shoelace sum over consecutive vertex pairs, without a wraparound
pair| / 2, scaled by 111320² · cos(mean latitude in radians) and
divided by 10,000; for a closed ring (first vertex equal to the last,
as GeoJSON rings are) this coincides with the spec's
wraparound-inclusive formula, whose extra term vanishes. -/
theorem area_formula_amended (coords : List (ℝ × ℝ)) (hlen : 4 ≤ coords.length) :
    calculatePolygonArea coords
      = |pairSum coords| / 2 * 111320 ^ 2
        * Real.cos (avgLat coords * (Real.pi / 180)) / 10000
    ∧ (coords.headD (0, 0) = coords.getLastD (0, 0) →
        areaSpecWithWrap coords = calculatePolygonArea coords) := by
  have hni : ¬ coords.length < 4 := by omega
  constructor
  · simp only [calculatePolygonArea, if_neg hni]
    rw [shoelaceSum_eq_pairSum]
  · intro hclosed
    have hwrap : wrapTerm coords = 0 := by
      unfold wrapTerm
      rw [← hclosed]
      ring
    simp only [calculatePolygonArea, areaSpecWithWrap, if_neg hni]
    rw [hwrap, add_zero, shoelaceSum_eq_pairSum]

/-- C5 witness: the amended formula at a concrete closed 4-point
ring. -/
theorem area_formula_amended_witness :
    4 ≤ ([((0 : ℝ), (0 : ℝ)), (1, 0), (1, 1), (0, 0)] : List (ℝ × ℝ)).length
    ∧ (calculatePolygonArea [((0 : ℝ), (0 : ℝ)), (1, 0), (1, 1), (0, 0)]
        = |pairSum [((0 : ℝ), (0 : ℝ)), (1, 0), (1, 1), (0, 0)]| / 2 * 111320 ^ 2
          * Real.cos (avgLat [((0 : ℝ), (0 : ℝ)), (1, 0), (1, 1), (0, 0)] * (Real.pi / 180)) / 10000
      ∧ (([((0 : ℝ), (0 : ℝ)), (1, 0), (1, 1), (0, 0)] : List (ℝ × ℝ)).headD (0, 0)
            = ([((0 : ℝ), (0 : ℝ)), (1, 0), (1, 1), (0, 0)] : List (ℝ × ℝ)).getLastD (0, 0) →
          areaSpecWithWrap [((0 : ℝ), (0 : ℝ)), (1, 0), (1, 1), (0, 0)]
            = calculatePolygonArea [((0 : ℝ), (0 : ℝ)), (1, 0), (1, 1), (0, 0)])) :=
  ⟨by norm_num,
   area_formula_amended [((0 : ℝ), (0 : ℝ)), (1, 0), (1, 1), (0, 0)] (by norm_num)⟩

/-- C2 counterexample: with credentials present and a request whose
geometry fails validation (longitude 200), the `route.ts` handler's
event trace is `[tokenCall, validationCheck]` — the OAuth
token-acquisition call to the provider happens before the validation
check, even though the request is then rejected with 400. -/
theorem token_before_validation_counterexample :
    (routePost goodEnv lng200Req okUpstream "now").trace
      = [Event.tokenCall, Event.validationCheck]
    ∧ Event.tokenCall.isExternal = true
    ∧ (validateGeometry (some lng200Geom)).1 = false
    ∧ (routePost goodEnv lng200Req okUpstream "now").status = 400 :=
  ⟨rfl, rfl, by decide, rfl⟩

/-- C2 amended: for every request carrying a geometry that fails
validation, the part_002 handler performs no external call at all, and
the route.ts handler never reaches the imagery compute call (nor the
SDK auth call); the only external call route.ts can make first is the
OAuth token acquisition, which always precedes parsing and validation.
When credentials are present and the request is JSON, the part_002
handler rejects with 400 and the validation message, and so does
route.ts when its token call succeeded. -/
theorem validation_before_compute (env : Env) (req : Request) (up : Upstream)
    (now date : String) (g0 : RawGeometry)
    (hbody : req.body = ParsedBody.withGeometry (some g0))
    (hval : (validateGeometry (some g0)).1 = false) :
    (∀ e ∈ (eePost env req up now date).trace, e.isExternal = false)
    ∧ Event.authCall ∉ (routePost env req up now).trace
    ∧ Event.computeCall ∉ (routePost env req up now).trace
    ∧ (∀ e ∈ (routePost env req up now).trace, e.isExternal = true → e = Event.tokenCall)
    ∧ ((env.geePrivateKey.isSome ∧ env.geeClientEmail.isSome ∧ env.geeProjectId.isSome
        ∧ req.contentType = "application/json") →
        ((eePost env req up now date).status = 400
          ∧ (eePost env req up now date).response.message = (validateGeometry (some g0)).2
          ∧ ∀ t, up.tokenRes = Except.ok t →
              (routePost env req up now).status = 400
              ∧ (routePost env req up now).response.message = (validateGeometry (some g0)).2)) := by
  have heeTrace : (eePost env req up now date).trace = []
      ∨ (eePost env req up now date).trace = [Event.validationCheck] := by
    unfold eePost
    split
    · exact Or.inl rfl
    split
    · exact Or.inl rfl
    rw [hbody]
    dsimp only
    rw [if_pos hval]
    exact Or.inr rfl
  have hrtTrace : (routePost env req up now).trace = []
      ∨ (routePost env req up now).trace = [Event.tokenCall]
      ∨ (routePost env req up now).trace = [Event.tokenCall, Event.validationCheck] := by
    unfold routePost
    split
    · exact Or.inl rfl
    split
    · exact Or.inr (Or.inl rfl)
    split
    · exact Or.inr (Or.inl rfl)
    split
    · exact Or.inr (Or.inl rfl)
    rw [hbody]
    dsimp only
    rw [if_pos hval]
    exact Or.inr (Or.inr rfl)
  refine ⟨?_, ?_, ?_, ?_, ?_⟩
  · intro e he
    rcases heeTrace with h | h <;> rw [h] at he <;> simp at he
    subst he
    rfl
  · intro hmem
    rcases hrtTrace with h | h | h <;> rw [h] at hmem <;> simp at hmem
  · intro hmem
    rcases hrtTrace with h | h | h <;> rw [h] at hmem <;> simp at hmem
  · intro e he hext
    rcases hrtTrace with h | h | h <;> rw [h] at he <;> simp at he
    · exact he
    · rcases he with rfl | rfl
      · rfl
      · exact absurd hext (by simp [Event.isExternal])
  · rintro ⟨hk, hce, hpj, hct⟩
    have hkn : env.geePrivateKey ≠ none := Option.isSome_iff_ne_none.mp hk
    have hcen : env.geeClientEmail ≠ none := Option.isSome_iff_ne_none.mp hce
    have hpjn : env.geeProjectId ≠ none := Option.isSome_iff_ne_none.mp hpj
    have hcond : ¬(env.geePrivateKey.isNone = true ∨ env.geeClientEmail.isNone = true
        ∨ env.geeProjectId.isNone = true) := by
      simp [Option.isNone_iff_eq_none, hkn, hcen, hpjn]
    have hee400 : eePost env req up now date
        = ⟨[Event.validationCheck], 400,
            createResponse false (validateGeometry (some g0)).2 now none⟩ := by
      unfold eePost
      rw [if_neg hcond, if_neg (by simp [hct]), hbody]
      dsimp only
      rw [if_pos hval]
    refine ⟨by rw [hee400], by rw [hee400]; rfl, ?_⟩
    intro t ht
    have hcond2 : ¬(env.geePrivateKey.isNone = true ∨ env.geeClientEmail.isNone = true) := by
      simp [Option.isNone_iff_eq_none, hkn, hcen]
    have hrt400 : routePost env req up now
        = ⟨[Event.tokenCall, Event.validationCheck], 400,
            createResponse false (validateGeometry (some g0)).2 now none⟩ := by
      unfold routePost
      rw [if_neg hcond2, ht]
      dsimp only
      rw [if_neg (by simp [Option.isNone_iff_eq_none, hpjn]), if_neg (by simp [hct]), hbody]
      dsimp only
      rw [if_pos hval]
    exact ⟨by rw [hrt400], by rw [hrt400]; rfl⟩

/-- C2 witness: the amended statement at the concrete longitude-200
request. -/
theorem validation_before_compute_witness :
    lng200Req.body = ParsedBody.withGeometry (some lng200Geom)
    ∧ (validateGeometry (some lng200Geom)).1 = false
    ∧ ((∀ e ∈ (eePost goodEnv lng200Req okUpstream "now" "date").trace, e.isExternal = false)
      ∧ Event.authCall ∉ (routePost goodEnv lng200Req okUpstream "now").trace
      ∧ Event.computeCall ∉ (routePost goodEnv lng200Req okUpstream "now").trace
      ∧ (∀ e ∈ (routePost goodEnv lng200Req okUpstream "now").trace,
          e.isExternal = true → e = Event.tokenCall)
      ∧ ((goodEnv.geePrivateKey.isSome ∧ goodEnv.geeClientEmail.isSome
          ∧ goodEnv.geeProjectId.isSome ∧ lng200Req.contentType = "application/json") →
          ((eePost goodEnv lng200Req okUpstream "now" "date").status = 400
            ∧ (eePost goodEnv lng200Req okUpstream "now" "date").response.message
                = (validateGeometry (some lng200Geom)).2
            ∧ ∀ t, okUpstream.tokenRes = Except.ok t →
                (routePost goodEnv lng200Req okUpstream "now").status = 400
                ∧ (routePost goodEnv lng200Req okUpstream "now").response.message
                    = (validateGeometry (some lng200Geom)).2))) :=
  ⟨rfl, by decide,
   validation_before_compute goodEnv lng200Req okUpstream "now" "date" lng200Geom rfl
     (by decide)⟩

end PixelFarm
